import Mathlib

/-!
Verification of the dev-runner watch/build/run loop (`src/dev_runner.py`).

The script is a single-threaded control loop: it scans a source tree for the
maximum modification time of watched files, rebuilds via an external build
tool, and (re)starts the built application, tracking at most one process
handle.  We embed each function as a pure Lean function over explicit inputs
(filesystem snapshots, build results, process-environment flags) and an
explicit action trace recording the OS-level effects the code performs, in
source order.
-/

namespace DevRunner

/-- Configuration constant `PROJECT_SCHEME` from the source. -/
def PROJECT_SCHEME : String := "PowerUserMail"

/-- Configuration constant `APP_PATH` from the source. -/
def APP_PATH : String :=
  "build/Build/Products/Debug/PowerUserMail.app/Contents/MacOS/PowerUserMail"

/-- Configuration constant `SOURCE_DIR` from the source. -/
def SOURCE_DIR : String := "PowerUserMail"

/-- A file seen by the `os.walk` traversal in `get_max_mtime`.  `mtime` is
`some t` when `os.path.getmtime` returns timestamp `t`, and `none` when it
raises (the file's timestamp cannot be read). -/
structure FileEntry where
  name : String
  mtime : Option Nat
  deriving DecidableEq, Repr

/-- Python's `str.endswith`: the suffix test, computed on the character
sequences of the two strings. -/
def strEndsWith (s suffix : String) : Bool :=
  suffix.data.isSuffixOf s.data

/-- The extension filter on line 69 of the source:
`f.endswith(".swift") or f.endswith(".entitlements") or f.endswith(".plist")`. -/
def isWatched (f : String) : Bool :=
  strEndsWith f ".swift" || strEndsWith f ".entitlements" ||
    strEndsWith f ".plist"

/-- One iteration of the inner loop body of `get_max_mtime`: the `try` block
updates the accumulator only when the file matches the extension filter and
its timestamp is readable and strictly larger; an unreadable timestamp is
swallowed by the bare `except: pass`. -/
def mtimeStep (max_mtime : Nat) (e : FileEntry) : Nat :=
  if isWatched e.name then
    match e.mtime with
    | some mtime => if mtime > max_mtime then mtime else max_mtime
    | none => max_mtime
  else
    max_mtime

/-- `get_max_mtime`: folds `mtimeStep` over the files produced by walking
`SOURCE_DIR`, starting from the sentinel `0`.  An empty or unreadable
directory yields the empty list of entries. -/
def get_max_mtime (files : List FileEntry) : Nat :=
  files.foldl mtimeStep 0

/-- `BuildResult`: exit code and captured text streams of the external
`xcodebuild` invocation in `build`. -/
structure BuildResult where
  returncode : Int
  stdout : String
  stderr : String
  deriving DecidableEq, Repr

/-- `build`: returns `False` when the build tool exits nonzero (after
printing the captured diagnostics), `True` otherwise.  It touches no process
state. -/
def build (result : BuildResult) : Bool :=
  if result.returncode != 0 then false else true

/-- Environment inputs of one `run_app` call: whether the previously tracked
process exits within the one-second `wait` grace period, whether the binary
exists at `APP_PATH`, and the pid of the newly launched process when one is
started. -/
structure RunEnv where
  exitsWithinGrace : Bool
  binaryExists : Bool
  newPid : Nat
  deriving DecidableEq, Repr

/-- OS-level effects performed by the script, in source order.  `terminate`,
`waitGrace`, `kill` act on the tracked handle; `killallByName` is the
`killall -9` orphan sweep; `settleSleep` is the `time.sleep(0.5)` after the
sweep; `launch` is the `subprocess.Popen`; `reportMissing` is the
missing-binary error message; `baselineUpdate`, `debounceSleep` and
`buildInvoke` mark the corresponding statements of the main loop body. -/
inductive Action where
  | terminate (pid : Nat)
  | waitGrace (pid : Nat) (timeoutSec : Nat)
  | kill (pid : Nat)
  | killallByName (procName : String)
  | settleSleep
  | launch (path : String)
  | reportMissing (path : String)
  | baselineUpdate (value : Nat)
  | debounceSleep
  | buildInvoke
  deriving DecidableEq, Repr

/-- `run_app`: if a previous handle exists, terminate it and wait up to one
second, force-killing on timeout; then unconditionally `killall -9` by name
and sleep; then launch the binary and store the new handle if it exists at
`APP_PATH`, else print an error (leaving `current_process` as it was).
Returns the action trace and the new value of `current_process`. -/
def run_app (env : RunEnv) (current_process : Option Nat) :
    List Action × Option Nat :=
  let stopActions : List Action :=
    match current_process with
    | some pid =>
        [Action.terminate pid, Action.waitGrace pid 1] ++
          (if env.exitsWithinGrace then [] else [Action.kill pid])
    | none => []
  let sweepActions : List Action :=
    [Action.killallByName "PowerUserMail", Action.settleSleep]
  if env.binaryExists then
    (stopActions ++ sweepActions ++ [Action.launch APP_PATH], some env.newPid)
  else
    (stopActions ++ sweepActions ++ [Action.reportMissing APP_PATH],
      current_process)

/-- The mutable state of `main`: the watch baseline `last_mtime` and the
global `current_process` handle. -/
structure LoopState where
  last_mtime : Nat
  current_process : Option Nat
  deriving DecidableEq, Repr

/-- The external inputs consumed by one cycle of `main`: the filesystem
snapshot scanned by `get_max_mtime`, the result of the build tool if it is
invoked, and the `run_app` environment if `run_app` is invoked. -/
structure LoopEnv where
  scanFiles : List FileEntry
  buildResult : BuildResult
  runEnv : RunEnv
  deriving Repr

/-- One iteration of the `while True` loop in `main` (lines 88 to 98): scan;
if the fresh maximum strictly exceeds `last_mtime`, update the baseline,
sleep the debounce delay, build, and run the app only on build success;
otherwise do nothing. -/
def loopStep (env : LoopEnv) (s : LoopState) : List Action × LoopState :=
  let current_mtime := get_max_mtime env.scanFiles
  if current_mtime > s.last_mtime then
    if build env.buildResult then
      let r := run_app env.runEnv s.current_process
      (Action.baselineUpdate current_mtime :: Action.debounceSleep ::
          Action.buildInvoke :: r.1,
        ⟨current_mtime, r.2⟩)
    else
      ([Action.baselineUpdate current_mtime, Action.debounceSleep,
          Action.buildInvoke],
        ⟨current_mtime, s.current_process⟩)
  else
    ([], s)

/-- The initial cycle of `main` (lines 81 to 85): compute the initial
baseline, then build and, only on success, run the app.  `current_process`
starts as `None`. -/
def mainInit (env : LoopEnv) : List Action × LoopState :=
  let last_mtime := get_max_mtime env.scanFiles
  if build env.buildResult then
    let r := run_app env.runEnv none
    (Action.buildInvoke :: r.1, ⟨last_mtime, r.2⟩)
  else
    ([Action.buildInvoke], ⟨last_mtime, none⟩)

/-- Iterating `loopStep` over a sequence of per-cycle inputs. -/
def runSteps (envs : List LoopEnv) (s : LoopState) : LoopState :=
  envs.foldl (fun st env => (loopStep env st).2) s

/-- Recognizer for the actions emitted by `run_app` (as opposed to the
main-loop bookkeeping actions). -/
def isRunAppAction : Action → Bool
  | Action.terminate _ => true
  | Action.waitGrace _ _ => true
  | Action.kill _ => true
  | Action.killallByName _ => true
  | Action.settleSleep => true
  | Action.launch _ => true
  | Action.reportMissing _ => true
  | _ => false

/-- Program points of `main` at which a `KeyboardInterrupt` can be
delivered: the initial scan (line 81), the initial build (line 84), the
initial run (line 85), and the body of the `while True` loop (lines 88 to
98). -/
inductive MainPhase where
  | initScan
  | initialBuild
  | initialRun
  | watchLoop
  deriving DecidableEq, Repr

/-- Whether the `try ... except KeyboardInterrupt` handler in `main` covers
the given program point: the `try` block (line 87) encloses only the
`while True` loop; the initial scan, build and run on lines 81 to 85 precede
it. -/
def interruptCaught : MainPhase → Bool
  | MainPhase.watchLoop => true
  | _ => false

/-- Outcome of delivering an interrupt: either the handler runs (printing,
terminating the tracked process when one exists, and calling
`sys.exit(0)`), or the exception propagates uncaught out of `main`. -/
inductive InterruptOutcome where
  | gracefulExit (terminateSent : Bool) (exitCode : Nat)
  | uncaught
  deriving DecidableEq, Repr

/-- Effect of a `KeyboardInterrupt` delivered at the given program point
with the given `current_process`: caught only inside the `try` block, where
the handler terminates the tracked process if one is set and exits 0. -/
def onInterrupt (phase : MainPhase) (current_process : Option Nat) :
    InterruptOutcome :=
  if interruptCaught phase then
    InterruptOutcome.gracefulExit current_process.isSome 0
  else
    InterruptOutcome.uncaught

/-- The modification timestamps of exactly the watched, readable files: the
reference value `get_max_mtime` is compared against. -/
def watchedMtimes (files : List FileEntry) : List Nat :=
  (files.filter (fun e => isWatched e.name)).filterMap (fun e => e.mtime)

/-! ## Helper lemmas -/

theorem mtimeStep_watched_some (acc m : Nat) (e : FileEntry)
    (hw : isWatched e.name = true) (hm : e.mtime = some m) :
    mtimeStep acc e = max acc m := by
  simp only [mtimeStep, hw, if_true, hm]
  split <;> omega

theorem mtimeStep_of_not_watched (acc : Nat) (e : FileEntry)
    (hw : isWatched e.name = false) :
    mtimeStep acc e = acc := by
  simp [mtimeStep, hw]

theorem mtimeStep_of_none (acc : Nat) (e : FileEntry)
    (hm : e.mtime = none) :
    mtimeStep acc e = acc := by
  simp [mtimeStep, hm]

theorem foldl_mtimeStep_eq (files : List FileEntry) :
    ∀ acc : Nat, files.foldl mtimeStep acc = (watchedMtimes files).foldl max acc := by
  induction files with
  | nil => intro acc; rfl
  | cons e rest ih =>
      intro acc
      by_cases hw : isWatched e.name
      · cases hm : e.mtime with
        | none =>
            rw [List.foldl_cons, mtimeStep_of_none acc e hm]
            simp only [watchedMtimes, List.filter_cons, hw, if_true,
              List.filterMap_cons, hm]
            exact ih acc
        | some m =>
            rw [List.foldl_cons, mtimeStep_watched_some acc m e hw hm]
            simp only [watchedMtimes, List.filter_cons, hw, if_true,
              List.filterMap_cons, hm, List.foldl_cons]
            exact ih (max acc m)
      · rw [List.foldl_cons, mtimeStep_of_not_watched acc e (by simpa using hw)]
        simp only [watchedMtimes, List.filter_cons, hw, if_false]
        exact ih acc

/-- `get_max_mtime` is the fold of `max` over the watched readable
timestamps, starting from the sentinel `0`. -/
theorem get_max_mtime_eq (files : List FileEntry) :
    get_max_mtime files = (watchedMtimes files).foldl max 0 :=
  foldl_mtimeStep_eq files 0

theorem foldl_max_le_init (l : List Nat) : ∀ acc : Nat, acc ≤ l.foldl max acc := by
  induction l with
  | nil => intro acc; simp
  | cons x xs ih =>
      intro acc
      exact le_trans (Nat.le_max_left acc x) (ih (max acc x))

theorem le_foldl_max_of_mem (l : List Nat) :
    ∀ acc a : Nat, a ∈ l → a ≤ l.foldl max acc := by
  induction l with
  | nil => intro acc a h; cases h
  | cons x xs ih =>
      intro acc a h
      rcases List.mem_cons.mp h with h1 | h2
      · subst h1
        exact le_trans (Nat.le_max_right acc a) (foldl_max_le_init xs (max acc a))
      · exact ih (max acc x) a h2

/-! ## Claims -/

/-- C3: `get_max_mtime` returns the maximum modification timestamp over
exactly the files whose names end in a watched extension (`.swift`,
`.entitlements`, `.plist`), returns the sentinel `0` when no matching file
exists or the directory is empty or unreadable (empty entry list), and
skips any individual file whose timestamp cannot be read without aborting
the scan: appending an unreadable entry leaves the result unchanged. -/
theorem get_max_mtime_spec (files : List FileEntry) (badName : String) :
    get_max_mtime files = (watchedMtimes files).foldl max 0 ∧
    get_max_mtime [] = 0 ∧
    (watchedMtimes files = [] → get_max_mtime files = 0) ∧
    get_max_mtime (files ++ [⟨badName, none⟩]) = get_max_mtime files := by
  refine ⟨get_max_mtime_eq files, rfl, ?_, ?_⟩
  · intro h
    rw [get_max_mtime_eq, h]
    rfl
  · show (files ++ [FileEntry.mk badName none]).foldl mtimeStep 0 =
      get_max_mtime files
    rw [List.foldl_append, List.foldl_cons,
      mtimeStep_of_none _ (FileEntry.mk badName none) rfl, List.foldl_nil]
    rfl

/-- C3 witness: a snapshot holding only a non-watched file, extended by an
unreadable entry: the scan returns the sentinel 0 and is unaffected by the
unreadable file. -/
theorem get_max_mtime_spec_witness :
    get_max_mtime [FileEntry.mk "x.txt" (some 3)] =
      (watchedMtimes [FileEntry.mk "x.txt" (some 3)]).foldl max 0 ∧
    get_max_mtime [] = 0 ∧
    (watchedMtimes [FileEntry.mk "x.txt" (some 3)] = [] →
      get_max_mtime [FileEntry.mk "x.txt" (some 3)] = 0) ∧
    get_max_mtime
        ([FileEntry.mk "x.txt" (some 3)] ++ [FileEntry.mk "bad.swift" none]) =
      get_max_mtime [FileEntry.mk "x.txt" (some 3)] :=
  get_max_mtime_spec [FileEntry.mk "x.txt" (some 3)] "bad.swift"

/-- C6: calling `run_app` with no tracked handle does not error: the
graceful-stop step is skipped entirely (the trace starts directly with the
orphan sweep), the unconditional `killall` sweep is still performed, and it
happens before any new launch. -/
theorem run_app_no_handle (env : RunEnv) :
    (run_app env none).1 =
      [Action.killallByName "PowerUserMail", Action.settleSleep] ++
        (if env.binaryExists then [Action.launch APP_PATH]
          else [Action.reportMissing APP_PATH]) ∧
    (run_app env none).2 =
      (if env.binaryExists then some env.newPid else none) := by
  cases hb : env.binaryExists <;> simp [run_app, hb]

/-- C7: when a previous handle exists, `run_app` first requests graceful
termination and waits up to a one-second grace period; the force-kill is
issued exactly when the process does not exit within the grace period; and
the escalation never aborts the operation — the sweep and the launch (or
missing-binary report) still follow. -/
theorem run_app_previous_handle (env : RunEnv) (pid : Nat) :
    (run_app env (some pid)).1 =
      [Action.terminate pid, Action.waitGrace pid 1] ++
        (if env.exitsWithinGrace then [] else [Action.kill pid]) ++
        [Action.killallByName "PowerUserMail", Action.settleSleep] ++
        (if env.binaryExists then [Action.launch APP_PATH]
          else [Action.reportMissing APP_PATH]) := by
  cases hb : env.binaryExists <;> cases he : env.exitsWithinGrace <;>
    simp [run_app, hb, he]

/-- C1 counterexample: with a previous handle `some 5` tracked and the
binary absent, `run_app` reports the missing binary but leaves
`current_process` equal to `some 5` — the stored handle is not cleared. -/
theorem run_app_missing_binary_cex :
    (run_app (RunEnv.mk true false 7) (some 5)).2 = some 5 ∧
    (run_app (RunEnv.mk true false 7) (some 5)).2 ≠ none ∧
    Action.reportMissing APP_PATH ∈
      (run_app (RunEnv.mk true false 7) (some 5)).1 := by
  refine ⟨rfl, ?_, ?_⟩ <;> decide

/-- C1 amended: if the binary is absent at `APP_PATH`, `run_app` reports an
error, launches nothing, and leaves the stored handle unchanged (it may
still refer to the previous, already-stopped instance rather than being
cleared). -/
theorem run_app_missing_binary (env : RunEnv) (cp : Option Nat)
    (h : env.binaryExists = false) :
    (run_app env cp).2 = cp ∧
    Action.reportMissing APP_PATH ∈ (run_app env cp).1 ∧
    Action.launch APP_PATH ∉ (run_app env cp).1 := by
  cases cp <;> cases he : env.exitsWithinGrace <;> simp [run_app, h, he]

/-- C1 amended, witness: instantiated at a concrete environment with the
binary absent and a tracked handle. -/
theorem run_app_missing_binary_witness :
    (RunEnv.mk false false 9).binaryExists = false ∧
    ((run_app (RunEnv.mk false false 9) (some 4)).2 = some 4 ∧
      Action.reportMissing APP_PATH ∈
        (run_app (RunEnv.mk false false 9) (some 4)).1 ∧
      Action.launch APP_PATH ∉
        (run_app (RunEnv.mk false false 9) (some 4)).1) :=
  ⟨rfl, run_app_missing_binary (RunEnv.mk false false 9) (some 4) rfl⟩

/-- C2: in every cycle — the initial one and every iteration of the watch
loop — a failed build means `run_app` is not invoked: the cycle's action
trace contains no `run_app` action, and the loop falls through to watching. -/
theorem build_failure_no_run (env : LoopEnv) (s : LoopState)
    (h : build env.buildResult = false) :
    (mainInit env).1.filter isRunAppAction = [] ∧
    (loopStep env s).1.filter isRunAppAction = [] := by
  constructor
  · simp [mainInit, h, isRunAppAction]
  · simp only [loopStep, h, Bool.false_eq_true, if_false]
    split <;> simp [isRunAppAction]

/-- C2 witness: a failing build (`returncode = 1`) on a cycle whose scan
detects a change. -/
theorem build_failure_no_run_witness :
    build (BuildResult.mk 1 "" "") = false ∧
    ((mainInit (LoopEnv.mk [FileEntry.mk "a.swift" (some 3)]
          (BuildResult.mk 1 "" "") (RunEnv.mk true true 2))).1.filter
        isRunAppAction = [] ∧
      (loopStep (LoopEnv.mk [FileEntry.mk "a.swift" (some 3)]
            (BuildResult.mk 1 "" "") (RunEnv.mk true true 2))
          (LoopState.mk 0 (some 8))).1.filter isRunAppAction = []) :=
  ⟨rfl, build_failure_no_run _ (LoopState.mk 0 (some 8)) rfl⟩

/-- C10: when the build fails, the cycle leaves the process state
completely untouched: no terminate, kill, kill-by-name or launch action is
emitted, and the stored handle is neither cleared nor replaced — a
previously running instance keeps running across failed rebuilds. -/
theorem build_failure_frame (env : LoopEnv) (s : LoopState)
    (h : build env.buildResult = false) :
    (loopStep env s).1.filter isRunAppAction = [] ∧
    (loopStep env s).2.current_process = s.current_process := by
  constructor
  · simp only [loopStep, h, Bool.false_eq_true, if_false]
    split <;> simp [isRunAppAction]
  · simp only [loopStep, h, Bool.false_eq_true, if_false]
    split <;> rfl

/-- C10 witness: a failing build on a change-detecting cycle leaves the
tracked handle `some 8` in place and signals nothing. -/
theorem build_failure_frame_witness :
    build (BuildResult.mk 1 "out" "err") = false ∧
    ((loopStep (LoopEnv.mk [FileEntry.mk "b.plist" (some 5)]
          (BuildResult.mk 1 "out" "err") (RunEnv.mk true true 3))
        (LoopState.mk 1 (some 8))).1.filter isRunAppAction = [] ∧
      (loopStep (LoopEnv.mk [FileEntry.mk "b.plist" (some 5)]
            (BuildResult.mk 1 "out" "err") (RunEnv.mk true true 3))
          (LoopState.mk 1 (some 8))).2.current_process = some 8) :=
  ⟨rfl, build_failure_frame _ (LoopState.mk 1 (some 8)) rfl⟩

theorem loopStep_no_trigger (env : LoopEnv) (s : LoopState)
    (h : get_max_mtime env.scanFiles ≤ s.last_mtime) :
    loopStep env s = ([], s) := by
  simp only [loopStep]
  rw [if_neg (by omega)]

theorem loopStep_last_mono (env : LoopEnv) (s : LoopState) :
    s.last_mtime ≤ (loopStep env s).2.last_mtime := by
  simp only [loopStep]
  split
  · rename_i hgt
    split <;> exact Nat.le_of_lt hgt
  · exact Nat.le_refl _

theorem runSteps_last_mono (envs : List LoopEnv) :
    ∀ s : LoopState, s.last_mtime ≤ (runSteps envs s).last_mtime := by
  induction envs with
  | nil => intro s; exact Nat.le_refl _
  | cons env rest ih =>
      intro s
      exact Nat.le_trans (loopStep_last_mono env s) (ih ((loopStep env s).2))

/-- C4: a rebuild is triggered exactly when the fresh scan strictly exceeds
the baseline (`buildInvoke` appears in the cycle's trace iff
`last_mtime < get_max_mtime`); a watched file whose readable timestamp is
strictly past the baseline forces the scan result strictly past the
baseline; and two snapshots with the same watched entries (differing only
in non-watched files) produce the same scan result. -/
theorem change_detection_threshold (env : LoopEnv) (s : LoopState)
    (files files' : List FileEntry) (e : FileEntry) (t : Nat)
    (hmem : e ∈ files) (hw : isWatched e.name = true) (hm : e.mtime = some t)
    (ht : s.last_mtime < t)
    (hfilter : files.filter (fun x => isWatched x.name) =
      files'.filter (fun x => isWatched x.name)) :
    (Action.buildInvoke ∈ (loopStep env s).1 ↔
      s.last_mtime < get_max_mtime env.scanFiles) ∧
    s.last_mtime < get_max_mtime files ∧
    get_max_mtime files = get_max_mtime files' := by
  refine ⟨?_, ?_, ?_⟩
  · simp only [loopStep]
    split
    · rename_i hgt
      simp only [hgt, iff_true]
      split <;> simp
    · rename_i hle
      simp only [List.not_mem_nil, false_iff]
      exact hle
  · have htm : t ∈ watchedMtimes files := by
      unfold watchedMtimes
      exact List.mem_filterMap.mpr
        ⟨e, List.mem_filter.mpr ⟨hmem, hw⟩, hm⟩
    have := le_foldl_max_of_mem (watchedMtimes files) 0 t htm
    rw [get_max_mtime_eq]
    omega
  · rw [get_max_mtime_eq, get_max_mtime_eq]
    unfold watchedMtimes
    rw [hfilter]

/-- C4 witness: a snapshot with one watched file at timestamp 5 against
baseline 3, and a second snapshot differing only by a non-watched file. -/
theorem change_detection_threshold_witness :
    ((FileEntry.mk "a.swift" (some 5)) ∈
        [FileEntry.mk "a.swift" (some 5), FileEntry.mk "c.txt" (some 99)] ∧
      isWatched "a.swift" = true ∧
      (3 : Nat) < 5 ∧
      List.filter (fun x => isWatched x.name)
          [FileEntry.mk "a.swift" (some 5), FileEntry.mk "c.txt" (some 99)] =
        List.filter (fun x => isWatched x.name)
          [FileEntry.mk "a.swift" (some 5)]) ∧
    ((Action.buildInvoke ∈
        (loopStep
          (LoopEnv.mk [FileEntry.mk "a.swift" (some 5)]
            (BuildResult.mk 0 "" "") (RunEnv.mk true true 2))
          (LoopState.mk 3 none)).1 ↔
      (3 : Nat) <
        get_max_mtime [FileEntry.mk "a.swift" (some 5)]) ∧
      (3 : Nat) <
        get_max_mtime
          [FileEntry.mk "a.swift" (some 5), FileEntry.mk "c.txt" (some 99)] ∧
      get_max_mtime
          [FileEntry.mk "a.swift" (some 5), FileEntry.mk "c.txt" (some 99)] =
        get_max_mtime [FileEntry.mk "a.swift" (some 5)]) :=
  ⟨⟨by decide, by decide, by decide, by decide⟩,
    change_detection_threshold
      (LoopEnv.mk [FileEntry.mk "a.swift" (some 5)]
        (BuildResult.mk 0 "" "") (RunEnv.mk true true 2))
      (LoopState.mk 3 none)
      [FileEntry.mk "a.swift" (some 5), FileEntry.mk "c.txt" (some 99)]
      [FileEntry.mk "a.swift" (some 5)]
      (FileEntry.mk "a.swift" (some 5)) 5
      (by decide) (by decide) rfl (by decide) (by decide)⟩

/-- C5: when a change is detected, the baseline is updated to the new scan
value before the debounce sleep and before the build is invoked (the trace
starts `baselineUpdate`, `debounceSleep`, `buildInvoke`), and a subsequent
cycle scanning the same unchanged snapshot triggers nothing. -/
theorem baseline_updated_before_debounce (env env' : LoopEnv) (s : LoopState)
    (hchange : s.last_mtime < get_max_mtime env.scanFiles)
    (hsame : env'.scanFiles = env.scanFiles) :
    (loopStep env s).2.last_mtime = get_max_mtime env.scanFiles ∧
    (loopStep env s).1.take 3 =
      [Action.baselineUpdate (get_max_mtime env.scanFiles),
        Action.debounceSleep, Action.buildInvoke] ∧
    loopStep env' (loopStep env s).2 = ([], (loopStep env s).2) := by
  have h2 : (loopStep env s).2.last_mtime = get_max_mtime env.scanFiles := by
    simp only [loopStep, hchange, if_true]
    split <;> rfl
  refine ⟨h2, ?_, ?_⟩
  · simp only [loopStep, hchange, if_true]
    split <;> rfl
  · exact loopStep_no_trigger env' (loopStep env s).2
      (by rw [hsame, h2])

/-- C5 witness: baseline 3, one watched file at timestamp 5, scanned again
unchanged on the next cycle. -/
theorem baseline_updated_before_debounce_witness :
    ((3 : Nat) < get_max_mtime [FileEntry.mk "a.swift" (some 5)] ∧
      [FileEntry.mk "a.swift" (some 5)] =
        [FileEntry.mk "a.swift" (some 5)]) ∧
    ((loopStep
        (LoopEnv.mk [FileEntry.mk "a.swift" (some 5)]
          (BuildResult.mk 0 "" "") (RunEnv.mk true true 2))
        (LoopState.mk 3 none)).2.last_mtime =
      get_max_mtime [FileEntry.mk "a.swift" (some 5)] ∧
      (loopStep
          (LoopEnv.mk [FileEntry.mk "a.swift" (some 5)]
            (BuildResult.mk 0 "" "") (RunEnv.mk true true 2))
          (LoopState.mk 3 none)).1.take 3 =
        [Action.baselineUpdate
            (get_max_mtime [FileEntry.mk "a.swift" (some 5)]),
          Action.debounceSleep, Action.buildInvoke] ∧
      loopStep
          (LoopEnv.mk [FileEntry.mk "a.swift" (some 5)]
            (BuildResult.mk 1 "" "") (RunEnv.mk true true 2))
          (loopStep
            (LoopEnv.mk [FileEntry.mk "a.swift" (some 5)]
              (BuildResult.mk 0 "" "") (RunEnv.mk true true 2))
            (LoopState.mk 3 none)).2 =
        ([],
          (loopStep
            (LoopEnv.mk [FileEntry.mk "a.swift" (some 5)]
              (BuildResult.mk 0 "" "") (RunEnv.mk true true 2))
            (LoopState.mk 3 none)).2)) :=
  ⟨⟨by decide, rfl⟩,
    baseline_updated_before_debounce
      (LoopEnv.mk [FileEntry.mk "a.swift" (some 5)]
        (BuildResult.mk 0 "" "") (RunEnv.mk true true 2))
      (LoopEnv.mk [FileEntry.mk "a.swift" (some 5)]
        (BuildResult.mk 1 "" "") (RunEnv.mk true true 2))
      (LoopState.mk 3 none) (by decide) rfl⟩

/-- C9: the watch baseline never decreases: each cycle leaves it greater or
equal; it changes only when the scan strictly exceeds it; a scan less than
or equal to the baseline leaves the whole cycle a no-op (in particular it
never lowers the baseline and never triggers a rebuild); and the baseline
is non-decreasing across any whole run of cycles. -/
theorem baseline_monotone (env : LoopEnv) (s : LoopState)
    (envs : List LoopEnv) :
    s.last_mtime ≤ (loopStep env s).2.last_mtime ∧
    ((loopStep env s).2.last_mtime ≠ s.last_mtime →
      s.last_mtime < get_max_mtime env.scanFiles) ∧
    (get_max_mtime env.scanFiles ≤ s.last_mtime → loopStep env s = ([], s)) ∧
    s.last_mtime ≤ (runSteps envs s).last_mtime := by
  refine ⟨loopStep_last_mono env s, ?_, loopStep_no_trigger env s,
    runSteps_last_mono envs s⟩
  intro hne
  rcases Nat.lt_or_ge s.last_mtime (get_max_mtime env.scanFiles) with h | h
  · exact h
  · exact absurd (by rw [loopStep_no_trigger env s h]) hne

/-- C9 witness: baseline 5 with an empty snapshot (scan result 0): the
cycle is a no-op and the baseline is not lowered. -/
theorem baseline_monotone_witness :
    (5 : Nat) ≤
      (loopStep
        (LoopEnv.mk [] (BuildResult.mk 0 "" "") (RunEnv.mk true true 2))
        (LoopState.mk 5 none)).2.last_mtime ∧
    ((loopStep
        (LoopEnv.mk [] (BuildResult.mk 0 "" "") (RunEnv.mk true true 2))
        (LoopState.mk 5 none)).2.last_mtime ≠ 5 →
      (5 : Nat) < get_max_mtime []) ∧
    (get_max_mtime [] ≤ 5 →
      loopStep
          (LoopEnv.mk [] (BuildResult.mk 0 "" "") (RunEnv.mk true true 2))
          (LoopState.mk 5 none) =
        ([], LoopState.mk 5 none)) ∧
    (5 : Nat) ≤
      (runSteps
        [LoopEnv.mk [] (BuildResult.mk 0 "" "") (RunEnv.mk true true 2)]
        (LoopState.mk 5 none)).last_mtime :=
  baseline_monotone
    (LoopEnv.mk [] (BuildResult.mk 0 "" "") (RunEnv.mk true true 2))
    (LoopState.mk 5 none)
    [LoopEnv.mk [] (BuildResult.mk 0 "" "") (RunEnv.mk true true 2)]

/-- C8 counterexample: a `KeyboardInterrupt` delivered during the initial
build — before the `try` block of `main` begins — is not caught: the
outcome is `uncaught`, not a graceful exit with code 0. -/
theorem interrupt_before_loop_cex :
    onInterrupt MainPhase.initialBuild (some 3) = InterruptOutcome.uncaught ∧
    onInterrupt MainPhase.initialBuild (some 3) ≠
      InterruptOutcome.gracefulExit true 0 :=
  ⟨rfl, by decide⟩

/-- C8 amended: an interrupt delivered during the watch loop terminates the
tracked process when one exists and exits with code 0; an interrupt
delivered at any program point outside the `try` block (initial scan,
initial build, initial run) is not caught by the shutdown handler. -/
theorem interrupt_graceful_exit (cp : Option Nat) (phase : MainPhase)
    (h : phase ≠ MainPhase.watchLoop) :
    onInterrupt MainPhase.watchLoop cp =
      InterruptOutcome.gracefulExit cp.isSome 0 ∧
    onInterrupt phase cp = InterruptOutcome.uncaught := by
  constructor
  · rfl
  · cases phase
    case watchLoop => exact absurd rfl h
    all_goals rfl

/-- C8 amended, witness: an interrupt during the initial run with a tracked
process `some 4`. -/
theorem interrupt_graceful_exit_witness :
    MainPhase.initialRun ≠ MainPhase.watchLoop ∧
    (onInterrupt MainPhase.watchLoop (some 4) =
        InterruptOutcome.gracefulExit (some 4 : Option Nat).isSome 0 ∧
      onInterrupt MainPhase.initialRun (some 4) =
        InterruptOutcome.uncaught) :=
  ⟨by decide, interrupt_graceful_exit (some 4) MainPhase.initialRun
    (by decide)⟩

end DevRunner
